import Mathlib

/-!
Verification of the customs-document-creator workflow engine
(`src/backend/server.py`) against its natural-language specification.

Shallow embedding conventions:
* The Mongo collections (`db.controls`, `db.declarations`, `db.fines`,
  `db.documents`, `db.templates`) are modelled as a `Store` of lists keyed
  by the same fields the endpoints query on (`find_one` becomes
  `List.find?`, `update_one` with `$set`/`$push` becomes `replaceFirst`
  with a record update, `insert_one` appends).
* Each endpoint handler becomes a pure function from the store and the
  request payload to `Except Err ...`; an `Except.error` outcome means the
  handler raised an `HTTPException` before any `update_one`/`insert_one`
  call, so the store is untouched.  `Err` names the semantic error class of
  each raised exception: `notFound` = HTTP 404, `forbidden` = HTTP 403,
  `invalidInput` = HTTP 400 "Declarant must acknowledge the certificate",
  `invalidState` = HTTP 400 "Document is not in draft status",
  `externalServiceError` = HTTP 500 raised by a PDF-generation failure,
  `internalError` = an unhandled exception (pydantic validation /
  `NoneType` errors) surfacing as HTTP 500.
* Wall-clock time (`datetime.now(...)`) and the `datetime.now().strftime`
  date string are passed in as explicit `now : Nat` / `dateYYYYMMDD`
  parameters; freshly generated uuids that are read back (the fine id) are
  parameters too, while the uuid `id` of each `ActionHistory` entry is
  omitted because it is generated randomly and never read.
* Python `float` money/weight values are embedded as `ℚ`: every literal in
  the source is an exactly representable decimal and the workflow only
  copies these values, never computes with them.
* The external PDF renderer (weasyprint) is an external collaborator: each
  call site takes the render outcome as an `Option String` parameter
  (`some path` = the produced file path, `none` = rendering raised).
-/

/-! ## Enumerations (server.py lines 56-101) -/

inductive UserRole
  | drafting_agent
  | control_officer
  | validation_officer
  | moa
deriving DecidableEq

inductive DocumentStatus
  | draft
  | under_control
  | under_validation
  | validated
  | rejected
deriving DecidableEq

inductive DocumentType
  | customs_report
  | administrative_act
  | violation_report
deriving DecidableEq

inductive ControlStatus
  | initiated
  | in_progress
  | compliance_check
  | non_compliant
  | certificate_generated
  | declarant_validation_st
  | completed
  | fine_issued
deriving DecidableEq

inductive ComplianceStatus
  | compliant
  | non_compliant
  | pending
deriving DecidableEq

inductive NonComplianceType
  | species
  | origin
  | value
  | classification
  | documentation
deriving DecidableEq

inductive FineStatus
  | pending
  | issued
  | paid
  | cancelled
deriving DecidableEq

/-- Semantic error classes for the `HTTPException`s raised by the handlers
(see the module comment for the exact HTTP status / detail each one maps
to). -/
inductive Err
  | notFound
  | forbidden
  | invalidInput
  | invalidState
  | externalServiceError
  | internalError
deriving DecidableEq

/-! ## Entities (server.py lines 104-251) -/

structure User where
  id : String
  username : String
  email : String
  full_name : String
  role : UserRole
  is_active : Bool
deriving DecidableEq

/-- Structured `details` payloads attached to `ActionHistory` entries.
Each constructor corresponds to one concrete `details=...` dict built in
the source; `updatedFields` abstracts `update_document`'s `details =
update_dict` to the list of keys it sets (the changed fields plus the
always-present `updated_at`). -/
inductive ActionDetails
  | noDetails
  | declarationRef (declaration_id : String)
  | nonCompliantCount (n : Nat)
  | decisionOf (decision : String)
  | ncTypeOf (t : NonComplianceType)
  | documentTypeOf (t : DocumentType)
  | updatedFields (fields : List String)
deriving DecidableEq

structure ActionHistory where
  action : String
  user_id : String
  user_name : String
  timestamp : Nat
  details : ActionDetails
deriving DecidableEq

structure Declaration where
  declaration_id : String
  importer_name : String
  importer_address : String
  goods_description : String
  origin_country : String
  value_cfr : ℚ
  customs_regime : String
  declaration_date : String
  customs_office : String
  tariff_code : Option String
  weight : Option ℚ
  quantity : Option Int
  created_at : Nat
deriving DecidableEq

structure ComplianceCheckItem where
  id : String
  item : String
  status : ComplianceStatus
  notes : Option String
  checked_by : Option String
  checked_at : Option Nat
deriving DecidableEq

structure Control where
  id : String
  declaration_id : String
  control_officer_id : String
  control_officer_name : String
  status : ControlStatus
  compliance_checks : List ComplianceCheckItem
  non_compliance_type : Option NonComplianceType
  non_compliance_details : Option String
  fiscal_impact : Option ℚ
  applicable_regulation : Option String
  declarant_acknowledged : Bool
  certificate_path : Option String
  pv_generated : Bool
  fine_decision : Option String
  created_at : Nat
  updated_at : Nat
  history : List ActionHistory
deriving DecidableEq

structure CustomsFine where
  id : String
  control_id : String
  declaration_id : String
  amount : ℚ
  regulation_code : String
  status : FineStatus
  sydonia_lo_number : Option String
  payment_notice_path : Option String
  created_at : Nat
deriving DecidableEq

structure Document where
  id : String
  title : String
  document_type : DocumentType
  status : DocumentStatus
  template_id : String
  content : List (String × String)
  sydonia_data : Option (List (String × String))
  created_by : String
  created_by_name : String
  assigned_to : Option String
  assigned_to_name : Option String
  created_at : Nat
  updated_at : Nat
  history : List ActionHistory
deriving DecidableEq

/-- Document templates; of their payload only the `id` is consulted by the
embedded operations, the field descriptors are abstracted to their names. -/
structure DocumentTemplate where
  id : String
  name : String
  document_type : DocumentType
  fields : List String
  checklist : List String
deriving DecidableEq

/-- Request model `DocumentUpdate` (server.py lines 239-243): every field
optional, only non-`none` fields are applied. -/
structure DocumentUpdate where
  title : Option String
  content : Option (List (String × String))
  status : Option DocumentStatus
  assigned_to : Option String
deriving DecidableEq

/-! ## The store -/

/-- The Mongo collections the workflow endpoints read and write. -/
structure Store where
  controls : List Control
  declarations : List Declaration
  fines : List CustomsFine
  documents : List Document
  templates : List DocumentTemplate
deriving DecidableEq

/-- Mongo `update_one`: replace the first element satisfying `p` (Mongo updates
the first matching document only). -/
def replaceFirst {α : Type} (p : α → Bool) (a : α) : List α → List α
  | [] => []
  | x :: xs => if p x then a :: xs else x :: replaceFirst p a xs

/-- The `require_role([CONTROL_OFFICER, VALIDATION_OFFICER])` dependency
guarding every Control endpoint. -/
def controlRoleOk (u : User) : Bool :=
  match u.role with
  | UserRole.control_officer => true
  | UserRole.validation_officer => true
  | _ => false

/-! ## Control workflow operations -/

/-- Per-item stamping in `update_compliance_checks` (server.py lines
978-983): an item whose submitted status is not `PENDING` gets
`checked_by`/`checked_at` set to the caller and the current time. -/
def stampCheck (u : User) (now : Nat) (check : ComplianceCheckItem) : ComplianceCheckItem :=
  if check.status ≠ ComplianceStatus.pending then
    { check with checked_by := some u.full_name, checked_at := some now }
  else check

/-- The updated Control written back by `update_compliance_checks`
(server.py lines 978-1007): checks replaced by the stamped request payload,
status decided by the presence of non-compliant items, one
`compliance_check_updated` history entry appended. -/
def uccControl (c : Control) (checks : List ComplianceCheckItem) (u : User) (now : Nat) : Control :=
  let updated_checks := checks.map (stampCheck u now)
  let non_compliant_items :=
    updated_checks.filter (fun ch => ch.status == ComplianceStatus.non_compliant)
  let new_status :=
    if non_compliant_items.isEmpty then ControlStatus.compliance_check
    else ControlStatus.non_compliant
  let act : ActionHistory :=
    { action := "compliance_check_updated", user_id := u.id, user_name := u.full_name,
      timestamp := now, details := ActionDetails.nonCompliantCount non_compliant_items.length }
  { c with compliance_checks := updated_checks, status := new_status,
           updated_at := now, history := c.history ++ [act] }

/-- Store-and-response pair produced by a successful
`update_compliance_checks` call: the updated Control written back over the
stored one and returned to the caller. -/
def uccResult (s : Store) (control_id : String) (c : Control)
    (checks : List ComplianceCheckItem) (u : User) (now : Nat) : Store × Control :=
  let c2 := uccControl c checks u now
  ({ s with controls := replaceFirst (fun x => x.id == control_id) c2 s.controls }, c2)

/-- Endpoint `PUT /controls/{control_id}/compliance` (server.py lines 967-1011).
Returns the updated store and the refetched Control the endpoint responds
with. -/
def update_compliance_checks (s : Store) (control_id : String)
    (checks : List ComplianceCheckItem) (u : User) (now : Nat) :
    Except Err (Store × Control) :=
  if controlRoleOk u = false then Except.error Err.forbidden
  else
    match s.controls.find? (fun x => x.id == control_id) with
    | none => Except.error Err.notFound
    | some control => Except.ok (uccResult s control_id control checks u now)

/-- The updated Control written back by `update_non_compliance` (server.py
lines 1028-1062): the four non-compliance fields set, status
`CERTIFICATE_GENERATED`, the rendered certificate path stored, one
`certificate_generated` history entry appended. -/
def uncControl (c : Control) (ty : NonComplianceType) (dts : String) (fi : ℚ)
    (reg : String) (cert_path : String) (u : User) (now : Nat) : Control :=
  { c with non_compliance_type := some ty, non_compliance_details := some dts,
           fiscal_impact := some fi, applicable_regulation := some reg,
           status := ControlStatus.certificate_generated, updated_at := now,
           certificate_path := some cert_path,
           history := c.history ++
             [{ action := "certificate_generated", user_id := u.id, user_name := u.full_name,
                timestamp := now, details := ActionDetails.ncTypeOf ty }] }

/-- Store-and-response pair produced by a successful
`update_non_compliance` call. -/
def uncResult (s : Store) (control_id : String) (c : Control) (ty : NonComplianceType)
    (dts : String) (fi : ℚ) (reg : String) (cert_path : String) (u : User)
    (now : Nat) : Store × Control :=
  let c2 := uncControl c ty dts fi reg cert_path u now
  ({ s with controls := replaceFirst (fun x => x.id == control_id) c2 s.controls }, c2)

/-- Endpoint `PUT /controls/{control_id}/non-compliance` (server.py lines
1013-1067).  The certificate render outcome is the `render` parameter; the
source calls `generate_certificate_of_visit_pdf` before `update_one`, so a
failed render raises HTTP 500 with nothing persisted. -/
def update_non_compliance (s : Store) (control_id : String)
    (ty : NonComplianceType) (dts : String) (fi : ℚ) (reg : String)
    (u : User) (render : Option String) (now : Nat) :
    Except Err (Store × Control) :=
  if controlRoleOk u = false then Except.error Err.forbidden
  else
    match s.controls.find? (fun x => x.id == control_id) with
    | none => Except.error Err.notFound
    | some control =>
      match s.declarations.find? (fun x => x.declaration_id == control.declaration_id) with
      | none => Except.error Err.notFound
      | some _ =>
        match render with
        | none => Except.error Err.externalServiceError
        | some cert_path => Except.ok (uncResult s control_id control ty dts fi reg cert_path u now)

/-- Mock LO fine number (server.py line 1114):
`f"LO{datetime.now().strftime('%Y%m%d')}{control_id[:6].upper()}"`. -/
def loNumber (dateYYYYMMDD control_id : String) : String :=
  "LO" ++ dateYYYYMMDD ++ (control_id.take 6).toUpper

/-- The `CustomsFine` inserted by the customs-fine branch of
`declarant_validation` (server.py lines 1106-1122): amount and regulation
code copied from the Control, status left at its `PENDING` default, LO
number and payment-notice path filled in before `insert_one`. -/
def dvFine (control_id : String) (c : Control) (fine_id : String) (amount : ℚ)
    (reg : String) (notice_path dateYYYYMMDD : String) (now : Nat) : CustomsFine :=
  { id := fine_id, control_id := control_id, declaration_id := c.declaration_id,
    amount := amount, regulation_code := reg, status := FineStatus.pending,
    sydonia_lo_number := some (loNumber dateYYYYMMDD control_id),
    payment_notice_path := some notice_path, created_at := now }

/-- The Control written back by the customs-fine branch of
`declarant_validation`. -/
def dvFineControl (c : Control) (decision : String) (u : User) (now : Nat) : Control :=
  { c with declarant_acknowledged := true, fine_decision := some decision,
           pv_generated := true, status := ControlStatus.fine_issued, updated_at := now,
           history := c.history ++
             [{ action := "customs_fine_initiated", user_id := u.id, user_name := u.full_name,
                timestamp := now, details := ActionDetails.decisionOf decision }] }

/-- The Control written back by the pass-over branch of
`declarant_validation`. -/
def dvPassControl (c : Control) (decision : String) (u : User) (now : Nat) : Control :=
  { c with declarant_acknowledged := true, fine_decision := some decision,
           pv_generated := true, status := ControlStatus.completed, updated_at := now,
           history := c.history ++
             [{ action := "control_completed_pass_over", user_id := u.id, user_name := u.full_name,
                timestamp := now, details := ActionDetails.decisionOf decision }] }

/-- Store after the customs-fine branch: the new fine inserted into
`db.fines`, the Control updated in place. -/
def dvFineResult (s : Store) (control_id : String) (c : Control) (decision : String)
    (u : User) (fine_id : String) (amount : ℚ) (reg : String)
    (notice_path dateYYYYMMDD : String) (now : Nat) : Store :=
  let fine := dvFine control_id c fine_id amount reg notice_path dateYYYYMMDD now
  let c2 := dvFineControl c decision u now
  { s with fines := s.fines ++ [fine],
           controls := replaceFirst (fun x => x.id == control_id) c2 s.controls }

/-- Store after the pass-over branch: only the Control updated. -/
def dvPassResult (s : Store) (control_id : String) (c : Control) (decision : String)
    (u : User) (now : Nat) : Store :=
  let c2 := dvPassControl c decision u now
  { s with controls := replaceFirst (fun x => x.id == control_id) c2 s.controls }

/-- Endpoint `POST /controls/{control_id}/declarant-validation` (server.py lines
1069-1132).  Branch structure of the source: the only input validation is
`acknowledged`; `fine_decision == "pass_over"` completes the control and
EVERY other decision string falls into the `else` (customs-fine) branch.
There the source builds `CustomsFine(amount=control["fiscal_impact"],
regulation_code=control["applicable_regulation"])` — pydantic rejects a
missing value with an unhandled error (`internalError`) — then looks up the
declaration (`Declaration(**None)` would also crash) and renders the
payment notice (`render_notice`; a failure raises HTTP 500) before
inserting the fine and updating the control. -/
def declarant_validation (s : Store) (control_id : String)
    (acknowledged : Bool) (fine_decision : String) (u : User)
    (fine_id : String) (render_notice : Option String)
    (dateYYYYMMDD : String) (now : Nat) : Except Err Store :=
  if controlRoleOk u = false then Except.error Err.forbidden
  else
    match s.controls.find? (fun x => x.id == control_id) with
    | none => Except.error Err.notFound
    | some control =>
      if acknowledged = false then Except.error Err.invalidInput
      else if fine_decision = "pass_over" then
        Except.ok (dvPassResult s control_id control fine_decision u now)
      else
        match control.fiscal_impact, control.applicable_regulation with
        | some amount, some reg =>
          match s.declarations.find? (fun x => x.declaration_id == control.declaration_id) with
          | none => Except.error Err.internalError
          | some _ =>
            match render_notice with
            | none => Except.error Err.externalServiceError
            | some notice_path =>
              Except.ok (dvFineResult s control_id control fine_decision u fine_id amount reg
                notice_path dateYYYYMMDD now)
        | _, _ => Except.error Err.internalError

/-- Endpoint `GET /controls` (server.py lines 941-951): control officers see only
their own controls, every other role sees all of them. -/
def get_controls (s : Store) (u : User) : List Control :=
  match u.role with
  | UserRole.control_officer => s.controls.filter (fun c => c.control_officer_id == u.id)
  | _ => s.controls

/-! ## Document workflow operations -/

/-- Endpoint `GET /documents` (server.py lines 1312-1327): drafting agents see only
documents they created; control officers see documents under control or
assigned to them; validation officers and MOA see everything. -/
def get_documents (s : Store) (u : User) : List Document :=
  match u.role with
  | UserRole.drafting_agent => s.documents.filter (fun d => d.created_by == u.id)
  | UserRole.control_officer =>
      s.documents.filter
        (fun d => (d.status == DocumentStatus.under_control) || (d.assigned_to == some u.id))
  | _ => s.documents

/-- The keys of `update_dict = {k: v for k, v in update_data.dict().items()
if v is not None}` plus the always-set `updated_at`. -/
def changedFields (upd : DocumentUpdate) : List String :=
  (if upd.title.isSome then ["title"] else []) ++
  (if upd.content.isSome then ["content"] else []) ++
  (if upd.status.isSome then ["status"] else []) ++
  (if upd.assigned_to.isSome then ["assigned_to"] else []) ++
  ["updated_at"]

/-- Applying `$set: update_dict` to a document: each non-`none` request
field overwrites the stored one, `updated_at` always refreshed. -/
def applyUpdate (d : Document) (upd : DocumentUpdate) (now : Nat) : Document :=
  { d with title := upd.title.getD d.title,
           content := upd.content.getD d.content,
           status := upd.status.getD d.status,
           assigned_to := (upd.assigned_to.map some).getD d.assigned_to,
           updated_at := now }

/-- The updated document written back by `update_document`: the applied
partial update plus one `updated` history entry whose details list the
keys of `update_dict`. -/
def updDocument (d : Document) (upd : DocumentUpdate) (u : User) (now : Nat) : Document :=
  { applyUpdate d upd now with
      history := d.history ++
        [{ action := "updated", user_id := u.id, user_name := u.full_name,
           timestamp := now, details := ActionDetails.updatedFields (changedFields upd) }] }

/-- Store-and-response pair produced by a successful `update_document`
call. -/
def updResult (s : Store) (document_id : String) (doc : Document)
    (upd : DocumentUpdate) (u : User) (now : Nat) : Store × Document :=
  let d2 := updDocument doc upd u now
  ({ s with documents := replaceFirst (fun x => x.id == document_id) d2 s.documents }, d2)

/-- Endpoint `PUT /documents/{document_id}` (server.py lines 1372-1413).  Note the
permission check of the source: 403 is raised only when the caller is a
drafting agent AND is not the creator AND the document is not in Draft —
all three at once.  No status-transition validation is performed: whatever
`status` the payload carries is applied verbatim. -/
def update_document (s : Store) (document_id : String) (upd : DocumentUpdate)
    (u : User) (now : Nat) : Except Err (Store × Document) :=
  match s.documents.find? (fun x => x.id == document_id) with
  | none => Except.error Err.notFound
  | some doc =>
    if u.role = UserRole.drafting_agent ∧ doc.created_by ≠ u.id ∧
        doc.status ≠ DocumentStatus.draft then
      Except.error Err.forbidden
    else Except.ok (updResult s document_id doc upd u now)

/-- The document written back by `submit_document`. -/
def submittedDoc (d : Document) (u : User) (now : Nat) : Document :=
  { d with status := DocumentStatus.under_control, updated_at := now,
           history := d.history ++
             [{ action := "submitted_for_control", user_id := u.id, user_name := u.full_name,
                timestamp := now, details := ActionDetails.noDetails }] }

/-- Store produced by a successful `submit_document` call. -/
def submitResult (s : Store) (document_id : String) (doc : Document) (u : User)
    (now : Nat) : Store :=
  { s with documents := replaceFirst (fun x => x.id == document_id) (submittedDoc doc u now) s.documents }

/-- Endpoint `POST /documents/{document_id}/submit` (server.py lines 1415-1449):
drafting-agent only, creator only, and the one genuine status guard of the
document workflow — HTTP 400 "Document is not in draft status" (the
`invalidState` of the spec's taxonomy) unless the document is in Draft. -/
def submit_document (s : Store) (document_id : String) (u : User) (now : Nat) :
    Except Err Store :=
  if u.role ≠ UserRole.drafting_agent then Except.error Err.forbidden
  else
    match s.documents.find? (fun x => x.id == document_id) with
    | none => Except.error Err.notFound
    | some doc =>
      if doc.created_by ≠ u.id then Except.error Err.forbidden
      else if doc.status ≠ DocumentStatus.draft then Except.error Err.invalidState
      else Except.ok (submitResult s document_id doc u now)

/-- Endpoint `POST /documents` (server.py lines 1329-1356): drafting-agent only,
404 when the template id does not resolve, new document in Draft with a
single `created` history entry. -/
def create_document (s : Store) (title : String) (dtype : DocumentType)
    (template_id : String) (content : List (String × String)) (u : User)
    (doc_id : String) (now : Nat) : Except Err (Store × Document) :=
  if u.role ≠ UserRole.drafting_agent then Except.error Err.forbidden
  else
    match s.templates.find? (fun t => t.id == template_id) with
    | none => Except.error Err.notFound
    | some _ =>
      let doc : Document :=
        { id := doc_id, title := title, document_type := dtype,
          status := DocumentStatus.draft, template_id := template_id, content := content,
          sydonia_data := none, created_by := u.id, created_by_name := u.full_name,
          assigned_to := none, assigned_to_name := none, created_at := now,
          updated_at := now,
          history := [{ action := "created", user_id := u.id, user_name := u.full_name,
                        timestamp := now, details := ActionDetails.documentTypeOf dtype }] }
      Except.ok ({ s with documents := s.documents ++ [doc] }, doc)

/-- The hard-coded response of the mock Sydonia lookup (server.py lines
1487-1508), with the requested declaration id substituted in. -/
def mockSydoniaDeclaration (declaration_id : String) (now : Nat) : Declaration :=
  { declaration_id := declaration_id, importer_name := "SARL Import Export NC",
    importer_address := "123 Rue de la Paix, Nouméa",
    goods_description := "Matériel informatique", origin_country := "France",
    value_cfr := 45000, customs_regime := "Importation définitive",
    declaration_date := "2024-01-15", customs_office := "Nouméa-Port",
    tariff_code := some "8471.30.00", weight := some (501 / 2), quantity := some 10,
    created_at := now }

/-- The fixed 7-item compliance checklist seeded at control creation
(server.py lines 911-919). -/
def defaultComplianceCheckLabels : List String :=
  ["Vérification identité importateur",
   "Contrôle cohérence déclaration/marchandises",
   "Vérification origine marchandises",
   "Contrôle valeur déclarée",
   "Vérification classement tarifaire",
   "Contrôle des documents d\x27accompagnement",
   "Vérification du régime douanier"]

/-- Endpoint `POST /controls` (server.py lines 897-939): resolves the (always
successful) mock Sydonia declaration, persists the snapshot, seeds the
checklist (fresh uuids passed in as `check_ids`), creates the Control in
`IN_PROGRESS` with a single `control_initiated` history entry. -/
def create_control (s : Store) (declaration_id : String) (u : User)
    (ctrl_id : String) (check_ids : List String) (now : Nat) :
    Except Err (Store × Control) :=
  if controlRoleOk u = false then Except.error Err.forbidden
  else
    let decl := mockSydoniaDeclaration declaration_id now
    let checks := List.zipWith
      (fun i lbl => ComplianceCheckItem.mk i lbl ComplianceStatus.pending none none none)
      check_ids defaultComplianceCheckLabels
    let control : Control :=
      { id := ctrl_id, declaration_id := declaration_id, control_officer_id := u.id,
        control_officer_name := u.full_name, status := ControlStatus.in_progress,
        compliance_checks := checks, non_compliance_type := none,
        non_compliance_details := none, fiscal_impact := none,
        applicable_regulation := none, declarant_acknowledged := false,
        certificate_path := none, pv_generated := false, fine_decision := none,
        created_at := now, updated_at := now,
        history := [{ action := "control_initiated", user_id := u.id, user_name := u.full_name,
                      timestamp := now, details := ActionDetails.declarationRef declaration_id }] }
    Except.ok ({ s with declarations := s.declarations ++ [decl],
                        controls := s.controls ++ [control] }, control)

/-! ## Concrete fixtures used by witnesses and counterexamples -/

def officerUser : User :=
  { id := "officer-1", username := "cofficer", email := "co@douanes.nc",
    full_name := "Agent de Contrôle", role := UserRole.control_officer, is_active := true }

def agentUser : User :=
  { id := "agent-1", username := "agent", email := "da@douanes.nc",
    full_name := "Agent de Rédaction", role := UserRole.drafting_agent, is_active := true }

def otherAgentUser : User :=
  { id := "agent-2", username := "agent2", email := "da2@douanes.nc",
    full_name := "Deuxième Agent", role := UserRole.drafting_agent, is_active := true }

def validatorUser : User :=
  { id := "validator-1", username := "vo", email := "vo@douanes.nc",
    full_name := "Agent de Validation", role := UserRole.validation_officer, is_active := true }

def baseDeclaration : Declaration := mockSydoniaDeclaration "DEC-1" 0

/-- A Control that has gone through `update_non_compliance`: certificate
generated, fiscal impact 50000 against regulation CD-230 (the §8 scenario
of the spec). -/
def readyControl : Control :=
  { id := "CTL-1", declaration_id := "DEC-1", control_officer_id := "officer-1",
    control_officer_name := "Agent de Contrôle",
    status := ControlStatus.certificate_generated, compliance_checks := [],
    non_compliance_type := some NonComplianceType.value,
    non_compliance_details := some "sous-evaluation", fiscal_impact := some 50000,
    applicable_regulation := some "CD-230", declarant_acknowledged := false,
    certificate_path := some "cert.pdf", pv_generated := false, fine_decision := none,
    created_at := 0, updated_at := 0, history := [] }

def draftDoc : Document :=
  { id := "DOC-1", title := "Rapport", document_type := DocumentType.customs_report,
    status := DocumentStatus.draft, template_id := "TPL-1", content := [],
    sydonia_data := none, created_by := "agent-1", created_by_name := "Agent de Rédaction",
    assigned_to := none, assigned_to_name := none, created_at := 0, updated_at := 0,
    history := [] }

def baseTemplate : DocumentTemplate :=
  { id := "TPL-1", name := "Rapport de contrôle douanier",
    document_type := DocumentType.customs_report, fields := [], checklist := [] }

def baseStore : Store :=
  { controls := [readyControl], declarations := [baseDeclaration], fines := [],
    documents := [draftDoc], templates := [baseTemplate] }

/-- A Control already in the terminal `COMPLETED` state, for probing the
absence of status preconditions. -/
def completedControl : Control := { readyControl with status := ControlStatus.completed }

def completedStore : Store := { baseStore with controls := [completedControl] }

/-- A compliance-check item submitted as non-compliant. -/
def ncCheckItem : ComplianceCheckItem :=
  { id := "CHK-1", item := "Contrôle valeur déclarée",
    status := ComplianceStatus.non_compliant, notes := none, checked_by := none,
    checked_at := none }


/-- Request payload that tries to jump a Draft document straight to
Validated. -/
def skipUpdate : DocumentUpdate :=
  { title := none, content := none, status := some DocumentStatus.validated,
    assigned_to := none }

/-- Request payload that only changes the title. -/
def titleUpdate : DocumentUpdate :=
  { title := some "Titre modifié", content := none, status := none, assigned_to := none }

/-! ## Helper lemmas -/

theorem replaceFirst_find? {α : Type} (p : α → Bool) (a x : α) (l : List α)
    (h : l.find? p = some x) (ha : p a = true) :
    (replaceFirst p a l).find? p = some a := by
  induction l with
  | nil => simp [List.find?] at h
  | cons y ys ih =>
    by_cases hy : p y
    · simp [replaceFirst, hy, List.find?_cons_of_pos _ ha]
    · rw [List.find?_cons_of_neg _ hy] at h
      simp [replaceFirst, hy, List.find?_cons_of_neg _ hy, ih h]

theorem stampCheck_status (u : User) (now : Nat) (ch : ComplianceCheckItem) :
    (stampCheck u now ch).status = ch.status := by
  unfold stampCheck
  split <;> rfl

theorem ucc_eq (s : Store) (cid : String) (checks : List ComplianceCheckItem)
    (u : User) (now : Nat) (c : Control)
    (hrole : controlRoleOk u = true)
    (hfind : s.controls.find? (fun x => x.id == cid) = some c) :
    update_compliance_checks s cid checks u now = Except.ok (uccResult s cid c checks u now) := by
  unfold update_compliance_checks
  rw [hrole, hfind]
  rfl

theorem unc_eq (s : Store) (cid : String) (ty : NonComplianceType) (dts : String)
    (fi : ℚ) (reg : String) (u : User) (cert_path : String) (now : Nat)
    (c : Control) (decl : Declaration)
    (hrole : controlRoleOk u = true)
    (hfind : s.controls.find? (fun x => x.id == cid) = some c)
    (hdecl : s.declarations.find? (fun x => x.declaration_id == c.declaration_id) = some decl) :
    update_non_compliance s cid ty dts fi reg u (some cert_path) now =
      Except.ok (uncResult s cid c ty dts fi reg cert_path u now) := by
  unfold update_non_compliance
  rw [hrole, hfind]
  simp [hdecl]

theorem unc_render_failure (s : Store) (cid : String) (ty : NonComplianceType)
    (dts : String) (fi : ℚ) (reg : String) (u : User) (now : Nat)
    (c : Control) (decl : Declaration)
    (hrole : controlRoleOk u = true)
    (hfind : s.controls.find? (fun x => x.id == cid) = some c)
    (hdecl : s.declarations.find? (fun x => x.declaration_id == c.declaration_id) = some decl) :
    update_non_compliance s cid ty dts fi reg u none now =
      Except.error Err.externalServiceError := by
  unfold update_non_compliance
  rw [hrole, hfind]
  simp [hdecl]

theorem upd_eq (s : Store) (did : String) (upd : DocumentUpdate) (u : User)
    (now : Nat) (doc : Document)
    (hfind : s.documents.find? (fun x => x.id == did) = some doc)
    (hperm : ¬(u.role = UserRole.drafting_agent ∧ doc.created_by ≠ u.id ∧
      doc.status ≠ DocumentStatus.draft)) :
    update_document s did upd u now = Except.ok (updResult s did doc upd u now) := by
  unfold update_document
  rw [hfind]
  simp [hperm]

theorem submit_eq (s : Store) (did : String) (u : User) (now : Nat) (doc : Document)
    (hrole : u.role = UserRole.drafting_agent)
    (hfind : s.documents.find? (fun x => x.id == did) = some doc)
    (hcreator : doc.created_by = u.id)
    (hdraft : doc.status = DocumentStatus.draft) :
    submit_document s did u now = Except.ok (submitResult s did doc u now) := by
  unfold submit_document
  rw [hfind]
  simp [hrole, hcreator, hdraft]

theorem dv_pass_eq (s : Store) (cid : String) (u : User) (fid : String)
    (rn : Option String) (ds : String) (now : Nat) (c : Control)
    (hrole : controlRoleOk u = true)
    (hfind : s.controls.find? (fun x => x.id == cid) = some c) :
    declarant_validation s cid true "pass_over" u fid rn ds now =
      Except.ok (dvPassResult s cid c "pass_over" u now) := by
  unfold declarant_validation
  rw [hrole, hfind]
  simp

theorem dv_fine_eq (s : Store) (cid d : String) (u : User) (fid : String)
    (np ds : String) (now : Nat) (c : Control) (a : ℚ) (r : String) (decl : Declaration)
    (hrole : controlRoleOk u = true)
    (hfind : s.controls.find? (fun x => x.id == cid) = some c)
    (hd : d ≠ "pass_over")
    (hfi : c.fiscal_impact = some a)
    (har : c.applicable_regulation = some r)
    (hdecl : s.declarations.find? (fun x => x.declaration_id == c.declaration_id) = some decl) :
    declarant_validation s cid true d u fid (some np) ds now =
      Except.ok (dvFineResult s cid c d u fid a r np ds now) := by
  unfold declarant_validation
  rw [hrole, hfind]
  simp [hd, hfi, har, hdecl]

/-! ## Claims about declarant validation (C1, C2, C10) -/

/-- Claim C1 as stated is false: a `declarant_validation` call whose
fine-decision is "neither_value" (neither "pass_over" nor "customs_fine")
is NOT rejected as invalid input — it succeeds, creates a CustomsFine and
moves the Control to FINE_ISSUED. -/
theorem C1_counterexample :
    (declarant_validation baseStore "CTL-1" true "neither_value" officerUser "FINE-1"
        (some "notice.pdf") "20260101" 5).toOption.map
      (fun s => (s.fines.length, s.controls.map Control.status)) =
    some (1, [ControlStatus.fine_issued]) := by
  decide

/-- Claim C1 (amended): a `declarant_validation` call whose fine-decision
is neither "pass_over" nor "customs_fine" is not rejected at all; the
source performs no validation of the decision string, so any such call
(acknowledged, control present with fiscal impact and regulation set,
declaration present, payment-notice rendering succeeding) takes the
customs-fine branch: the Control is mutated to FINE_ISSUED and a
CustomsFine is created, exactly as for "customs_fine". -/
theorem C1_amended (s : Store) (cid d : String) (u : User) (fid np ds : String)
    (now : Nat) (c : Control) (a : ℚ) (r : String) (decl : Declaration)
    (hrole : controlRoleOk u = true)
    (hfind : s.controls.find? (fun x => x.id == cid) = some c)
    (hfi : c.fiscal_impact = some a)
    (har : c.applicable_regulation = some r)
    (hdecl : s.declarations.find? (fun x => x.declaration_id == c.declaration_id) = some decl)
    (hd1 : d ≠ "pass_over") (_hd2 : d ≠ "customs_fine") :
    declarant_validation s cid true d u fid (some np) ds now =
      Except.ok (dvFineResult s cid c d u fid a r np ds now) :=
  dv_fine_eq s cid d u fid np ds now c a r decl hrole hfind hd1 hfi har hdecl

/-- Witness for C1_amended at the concrete base fixture with decision
"neither_value". -/
theorem C1_witness :
    declarant_validation baseStore "CTL-1" true "neither_value" officerUser "FINE-1"
        (some "notice.pdf") "20260101" 5 =
      Except.ok (dvFineResult baseStore "CTL-1" readyControl "neither_value" officerUser
        "FINE-1" 50000 "CD-230" "notice.pdf" "20260101" 5) :=
  C1_amended baseStore "CTL-1" "neither_value" officerUser "FINE-1" "notice.pdf" "20260101"
    5 readyControl 50000 "CD-230" baseDeclaration (by rfl) (by rfl) (by rfl)
    (by rfl) (by rfl) (by decide) (by decide)

/-- Claim C2 as stated is false: the same Control can accumulate more than
one CustomsFine — two consecutive `declarant_validation` calls with
decision "customs_fine" (nothing stops the second, there is no status
precondition) leave two fines referencing control CTL-1. -/
theorem C2_counterexample :
    ((declarant_validation baseStore "CTL-1" true "customs_fine" officerUser "FINE-1"
        (some "notice1.pdf") "20260101" 5).bind
      (fun s1 => declarant_validation s1 "CTL-1" true "customs_fine" officerUser "FINE-2"
        (some "notice2.pdf") "20260102" 6)).toOption.map
      (fun s2 => (s2.fines.filter (fun f => f.control_id == "CTL-1")).length) =
    some 2 := by
  decide

/-- Claim C2 (amended): per `declarant_validation` call (acknowledged,
control present with fiscal impact and regulation set, declaration
present, rendering succeeding), a CustomsFine is created iff the decision
differs from "pass_over" (so "customs_fine" and any other non-"pass_over"
string alike); each fine-creating call appends exactly one fine whose
amount equals the Control's fiscal impact at validation time.  Repeated
calls can therefore create several fines for one Control. -/
theorem C2_amended (s : Store) (cid d : String) (u : User) (fid np ds : String)
    (now : Nat) (c : Control) (a : ℚ) (r : String) (decl : Declaration)
    (hrole : controlRoleOk u = true)
    (hfind : s.controls.find? (fun x => x.id == cid) = some c)
    (hfi : c.fiscal_impact = some a)
    (har : c.applicable_regulation = some r)
    (hdecl : s.declarations.find? (fun x => x.declaration_id == c.declaration_id) = some decl) :
    (d = "pass_over" →
      declarant_validation s cid true d u fid (some np) ds now =
        Except.ok (dvPassResult s cid c d u now) ∧
      (dvPassResult s cid c d u now).fines = s.fines) ∧
    (d ≠ "pass_over" →
      declarant_validation s cid true d u fid (some np) ds now =
        Except.ok (dvFineResult s cid c d u fid a r np ds now) ∧
      (dvFineResult s cid c d u fid a r np ds now).fines =
        s.fines ++ [dvFine cid c fid a r np ds now] ∧
      (dvFine cid c fid a r np ds now).amount = a) := by
  constructor
  · intro hpass
    subst hpass
    exact ⟨dv_pass_eq s cid u fid (some np) ds now c hrole hfind, rfl⟩
  · intro hne
    exact ⟨dv_fine_eq s cid d u fid np ds now c a r decl hrole hfind hne hfi har hdecl,
      rfl, rfl⟩

/-- Witness for C2_amended at the concrete base fixture. -/
theorem C2_witness :
    ("customs_fine" = "pass_over" →
      declarant_validation baseStore "CTL-1" true "customs_fine" officerUser "FINE-1"
          (some "notice.pdf") "20260101" 5 =
        Except.ok (dvPassResult baseStore "CTL-1" readyControl "customs_fine" officerUser 5) ∧
      (dvPassResult baseStore "CTL-1" readyControl "customs_fine" officerUser 5).fines =
        baseStore.fines) ∧
    ("customs_fine" ≠ "pass_over" →
      declarant_validation baseStore "CTL-1" true "customs_fine" officerUser "FINE-1"
          (some "notice.pdf") "20260101" 5 =
        Except.ok (dvFineResult baseStore "CTL-1" readyControl "customs_fine" officerUser
          "FINE-1" 50000 "CD-230" "notice.pdf" "20260101" 5) ∧
      (dvFineResult baseStore "CTL-1" readyControl "customs_fine" officerUser "FINE-1"
          50000 "CD-230" "notice.pdf" "20260101" 5).fines =
        baseStore.fines ++
          [dvFine "CTL-1" readyControl "FINE-1" 50000 "CD-230" "notice.pdf" "20260101" 5] ∧
      (dvFine "CTL-1" readyControl "FINE-1" 50000 "CD-230" "notice.pdf" "20260101" 5).amount =
        50000) :=
  C2_amended baseStore "CTL-1" "customs_fine" officerUser "FINE-1" "notice.pdf" "20260101"
    5 readyControl 50000 "CD-230" baseDeclaration (by rfl) (by rfl) (by rfl)
    (by rfl) (by rfl)

/-- Claim C10: every CustomsFine created by the customs-fine branch of
`declarant_validation` starts with status PENDING, carries the LO number
"LO" + date (YYYYMMDD) + the first six characters of the control id
uppercased, and a non-null payment-notice artifact reference. -/
theorem C10_theorem (s : Store) (cid d : String) (u : User) (fid np ds : String)
    (now : Nat) (c : Control) (a : ℚ) (r : String) (decl : Declaration)
    (hrole : controlRoleOk u = true)
    (hfind : s.controls.find? (fun x => x.id == cid) = some c)
    (hfi : c.fiscal_impact = some a)
    (har : c.applicable_regulation = some r)
    (hdecl : s.declarations.find? (fun x => x.declaration_id == c.declaration_id) = some decl)
    (hd : d ≠ "pass_over") :
    declarant_validation s cid true d u fid (some np) ds now =
      Except.ok (dvFineResult s cid c d u fid a r np ds now) ∧
    (dvFineResult s cid c d u fid a r np ds now).fines =
      s.fines ++ [dvFine cid c fid a r np ds now] ∧
    (dvFine cid c fid a r np ds now).status = FineStatus.pending ∧
    (dvFine cid c fid a r np ds now).sydonia_lo_number =
      some ("LO" ++ ds ++ (cid.take 6).toUpper) ∧
    (dvFine cid c fid a r np ds now).payment_notice_path = some np :=
  ⟨dv_fine_eq s cid d u fid np ds now c a r decl hrole hfind hd hfi har hdecl,
    rfl, rfl, rfl, rfl⟩

/-- Witness for C10_theorem at the concrete base fixture. -/
theorem C10_witness :
    declarant_validation baseStore "CTL-1" true "customs_fine" officerUser "FINE-1"
        (some "notice.pdf") "20260101" 5 =
      Except.ok (dvFineResult baseStore "CTL-1" readyControl "customs_fine" officerUser
        "FINE-1" 50000 "CD-230" "notice.pdf" "20260101" 5) ∧
    (dvFineResult baseStore "CTL-1" readyControl "customs_fine" officerUser "FINE-1"
        50000 "CD-230" "notice.pdf" "20260101" 5).fines =
      baseStore.fines ++
        [dvFine "CTL-1" readyControl "FINE-1" 50000 "CD-230" "notice.pdf" "20260101" 5] ∧
    (dvFine "CTL-1" readyControl "FINE-1" 50000 "CD-230" "notice.pdf" "20260101" 5).status =
      FineStatus.pending ∧
    (dvFine "CTL-1" readyControl "FINE-1" 50000 "CD-230" "notice.pdf" "20260101" 5).sydonia_lo_number =
      some ("LO" ++ "20260101" ++ (("CTL-1").take 6).toUpper) ∧
    (dvFine "CTL-1" readyControl "FINE-1" 50000 "CD-230" "notice.pdf" "20260101" 5).payment_notice_path =
      some "notice.pdf" :=
  C10_theorem baseStore "CTL-1" "customs_fine" officerUser "FINE-1" "notice.pdf" "20260101"
    5 readyControl 50000 "CD-230" baseDeclaration (by rfl) (by rfl) (by rfl)
    (by rfl) (by rfl) (by decide)

/-! ## Claims about the Document state machine and permissions (C3, C4, C5) -/


/-- Claim C3 as stated is false: `update_document` performs no transition
validation, so the creator can move a Draft document directly to Validated
(a skip) and the call succeeds instead of failing with InvalidState. -/
theorem C3_counterexample :
    (update_document baseStore "DOC-1" skipUpdate agentUser 7).toOption.map
      (fun pr => pr.2.status) = some DocumentStatus.validated := by
  decide

/-- Claim C3 (amended): `submit_document` is the only guarded transition —
for the drafting-agent creator it moves Draft to UnderControl and fails
with InvalidState when the document is not in Draft — but `update_document`
applies any requested status verbatim (when the permission check passes),
so status skips such as Draft to Validated succeed and the chain
Draft→UnderControl→UnderValidation→{Validated,Rejected} is not enforced. -/
theorem C3_amended (s : Store) (did : String) (u : User) (now : Nat) (doc : Document)
    (upd : DocumentUpdate) (st : DocumentStatus)
    (hfind : s.documents.find? (fun x => x.id == did) = some doc) :
    (u.role = UserRole.drafting_agent → doc.created_by = u.id →
      doc.status = DocumentStatus.draft →
      submit_document s did u now = Except.ok (submitResult s did doc u now) ∧
      (submittedDoc doc u now).status = DocumentStatus.under_control) ∧
    (u.role = UserRole.drafting_agent → doc.created_by = u.id →
      doc.status ≠ DocumentStatus.draft →
      submit_document s did u now = Except.error Err.invalidState) ∧
    (upd.status = some st →
      ¬(u.role = UserRole.drafting_agent ∧ doc.created_by ≠ u.id ∧
        doc.status ≠ DocumentStatus.draft) →
      update_document s did upd u now = Except.ok (updResult s did doc upd u now) ∧
      (updDocument doc upd u now).status = st) := by
  refine ⟨?_, ?_, ?_⟩
  · intro hrole hcreator hdraft
    constructor
    · unfold submit_document
      rw [hfind]
      simp [hrole, hcreator, hdraft]
    · rfl
  · intro hrole hcreator hnotdraft
    unfold submit_document
    rw [hfind]
    simp [hrole, hcreator, hnotdraft]
  · intro hst hperm
    constructor
    · unfold update_document
      rw [hfind]
      simp [hperm]
    · simp [updDocument, applyUpdate, hst]

/-- Witness for C3_amended at the concrete base fixture (drafting-agent
creator, document in Draft, payload requesting Validated). -/
theorem C3_witness :
    (agentUser.role = UserRole.drafting_agent → draftDoc.created_by = agentUser.id →
      draftDoc.status = DocumentStatus.draft →
      submit_document baseStore "DOC-1" agentUser 7 =
        Except.ok (submitResult baseStore "DOC-1" draftDoc agentUser 7) ∧
      (submittedDoc draftDoc agentUser 7).status = DocumentStatus.under_control) ∧
    (agentUser.role = UserRole.drafting_agent → draftDoc.created_by = agentUser.id →
      draftDoc.status ≠ DocumentStatus.draft →
      submit_document baseStore "DOC-1" agentUser 7 = Except.error Err.invalidState) ∧
    (skipUpdate.status = some DocumentStatus.validated →
      ¬(agentUser.role = UserRole.drafting_agent ∧ draftDoc.created_by ≠ agentUser.id ∧
        draftDoc.status ≠ DocumentStatus.draft) →
      update_document baseStore "DOC-1" skipUpdate agentUser 7 =
        Except.ok (updResult baseStore "DOC-1" draftDoc skipUpdate agentUser 7) ∧
      (updDocument draftDoc skipUpdate agentUser 7).status = DocumentStatus.validated) :=
  C3_amended baseStore "DOC-1" agentUser 7 draftDoc skipUpdate DocumentStatus.validated
    (by rfl)

/-- Claim C4 as stated is false: `update_compliance_checks` invoked on a
Control in the terminal COMPLETED state does not fail with InvalidState —
it succeeds and even drags the Control back to COMPLIANCE_CHECK. -/
theorem C4_counterexample :
    (update_compliance_checks completedStore "CTL-1" [] officerUser 9).toOption.map
      (fun pr => pr.2.status) = some ControlStatus.compliance_check := by
  decide

/-- Claim C4 (amended): none of the three Control operations checks the
Control's current status at all — `update_compliance_checks`,
`update_non_compliance` and `declarant_validation` can never fail with
InvalidState (their only failures are NotFound, Forbidden, InvalidInput
for a missing acknowledgement, and the two 500-class errors); from any
status, a call meeting the other preconditions simply proceeds. -/
theorem C4_amended (s : Store) (cid : String) (checks : List ComplianceCheckItem)
    (ty : NonComplianceType) (dts : String) (fi : ℚ) (reg : String)
    (ack : Bool) (d : String) (u : User) (fid : String)
    (r1 r2 : Option String) (ds : String) (now : Nat) :
    update_compliance_checks s cid checks u now ≠ Except.error Err.invalidState ∧
    update_non_compliance s cid ty dts fi reg u r1 now ≠ Except.error Err.invalidState ∧
    declarant_validation s cid ack d u fid r2 ds now ≠ Except.error Err.invalidState := by
  refine ⟨?_, ?_, ?_⟩
  · intro h
    unfold update_compliance_checks at h
    repeat' split at h
    all_goals simp_all
  · intro h
    unfold update_non_compliance at h
    repeat' split at h
    all_goals simp_all
  · intro h
    unfold declarant_validation at h
    repeat' split at h
    all_goals simp_all

/-- Claim C5 as stated is false: a drafting agent who is NOT the creator
can successfully update another agent's document while it is in Draft —
the source's permission check only fires when the caller is additionally
working on a non-Draft document. -/
theorem C5_counterexample :
    (update_document baseStore "DOC-1" titleUpdate otherAgentUser 7).toOption.map
      (fun pr => pr.2.title) = some "Titre modifié" := by
  decide

/-- Claim C5 (amended): an `update_document` call on an existing document
fails with Forbidden exactly when the caller is a drafting agent AND is
not the creator AND the document is not in Draft — the three conditions
conjoined, not "creator AND Draft" required.  A non-creator drafting agent
updating a Draft document, or the creator updating after Draft, succeeds. -/
theorem C5_amended (s : Store) (did : String) (upd : DocumentUpdate) (u : User)
    (now : Nat) (doc : Document)
    (hfind : s.documents.find? (fun x => x.id == did) = some doc) :
    update_document s did upd u now = Except.error Err.forbidden ↔
      (u.role = UserRole.drafting_agent ∧ doc.created_by ≠ u.id ∧
        doc.status ≠ DocumentStatus.draft) := by
  unfold update_document
  rw [hfind]
  by_cases hcond : u.role = UserRole.drafting_agent ∧ doc.created_by ≠ u.id ∧
      doc.status ≠ DocumentStatus.draft
  · simp [hcond]
  · simp [hcond]

/-- Witness for C5_amended at the concrete base fixture: a non-creator
drafting agent against a Draft document, where the right-hand side is
false and the update accordingly does not fail with Forbidden. -/
theorem C5_witness :
    update_document baseStore "DOC-1" titleUpdate otherAgentUser 7 =
        Except.error Err.forbidden ↔
      (otherAgentUser.role = UserRole.drafting_agent ∧
        draftDoc.created_by ≠ otherAgentUser.id ∧
        draftDoc.status ≠ DocumentStatus.draft) :=
  C5_amended baseStore "DOC-1" titleUpdate otherAgentUser 7 draftDoc (by rfl)

/-! ## Claims about compliance checking and certificate atomicity (C6, C7) -/

theorem stamp_filter_length (u : User) (now : Nat) (checks : List ComplianceCheckItem) :
    ((checks.map (stampCheck u now)).filter
      (fun ch => ch.status == ComplianceStatus.non_compliant)).length =
    (checks.filter (fun ch => ch.status == ComplianceStatus.non_compliant)).length := by
  induction checks with
  | nil => rfl
  | cons ch chs ih =>
    by_cases hch : ch.status = ComplianceStatus.non_compliant
    · simp [List.filter_cons, stampCheck_status, hch, ih]
    · simp [List.filter_cons, stampCheck_status, hch, ih]

theorem stamp_filter_isEmpty (u : User) (now : Nat) (checks : List ComplianceCheckItem) :
    ((checks.map (stampCheck u now)).filter
      (fun ch => ch.status == ComplianceStatus.non_compliant)).isEmpty =
    !(checks.any (fun ch => ch.status == ComplianceStatus.non_compliant)) := by
  induction checks with
  | nil => rfl
  | cons ch chs ih =>
    by_cases hch : ch.status = ComplianceStatus.non_compliant
    · simp [List.filter_cons, stampCheck_status, hch]
    · simp [List.filter_cons, stampCheck_status, hch, ih]

/-- Claim C6: a permitted `update_compliance_checks` call on an existing
Control replaces the checks with the stamped request payload (every
non-Pending item stamped with the caller and the current time), sets the
status to NON_COMPLIANT exactly when at least one item is non-compliant
and to COMPLIANCE_CHECK otherwise, and appends one
"compliance_check_updated" audit entry carrying the count of non-compliant
items. -/
theorem C6_theorem (s : Store) (cid : String) (checks : List ComplianceCheckItem)
    (u : User) (now : Nat) (c : Control)
    (hrole : controlRoleOk u = true)
    (hfind : s.controls.find? (fun x => x.id == cid) = some c) :
    update_compliance_checks s cid checks u now = Except.ok (uccResult s cid c checks u now) ∧
    (uccControl c checks u now).compliance_checks = checks.map (stampCheck u now) ∧
    (∀ ch ∈ checks, ch.status ≠ ComplianceStatus.pending →
      (stampCheck u now ch).checked_by = some u.full_name ∧
      (stampCheck u now ch).checked_at = some now) ∧
    (uccControl c checks u now).status =
      (if checks.any (fun ch => ch.status == ComplianceStatus.non_compliant)
        then ControlStatus.non_compliant else ControlStatus.compliance_check) ∧
    (uccControl c checks u now).history = c.history ++
      [{ action := "compliance_check_updated", user_id := u.id, user_name := u.full_name,
         timestamp := now,
         details := ActionDetails.nonCompliantCount
           (checks.filter (fun ch => ch.status == ComplianceStatus.non_compliant)).length }] := by
  refine ⟨ucc_eq s cid checks u now c hrole hfind, rfl, ?_, ?_, ?_⟩
  · intro ch _ hne
    constructor
    · simp [stampCheck, hne]
    · simp [stampCheck, hne]
  · have hst : (uccControl c checks u now).status =
        (if ((checks.map (stampCheck u now)).filter
            (fun ch => ch.status == ComplianceStatus.non_compliant)).isEmpty
          then ControlStatus.compliance_check else ControlStatus.non_compliant) := rfl
    rw [hst, stamp_filter_isEmpty]
    cases checks.any (fun ch => ch.status == ComplianceStatus.non_compliant) <;> rfl
  · exact congrArg
      (fun n => c.history ++
        [ActionHistory.mk "compliance_check_updated" u.id u.full_name now
          (ActionDetails.nonCompliantCount n)])
      (stamp_filter_length u now checks)

/-- Witness for C6_theorem: the officer submits one non-compliant item
against the base fixture Control. -/
theorem C6_witness :
    update_compliance_checks baseStore "CTL-1" [ncCheckItem] officerUser 9 =
      Except.ok (uccResult baseStore "CTL-1" readyControl [ncCheckItem] officerUser 9) ∧
    (uccControl readyControl [ncCheckItem] officerUser 9).compliance_checks =
      [ncCheckItem].map (stampCheck officerUser 9) ∧
    (∀ ch ∈ [ncCheckItem], ch.status ≠ ComplianceStatus.pending →
      (stampCheck officerUser 9 ch).checked_by = some officerUser.full_name ∧
      (stampCheck officerUser 9 ch).checked_at = some 9) ∧
    (uccControl readyControl [ncCheckItem] officerUser 9).status =
      (if [ncCheckItem].any (fun ch => ch.status == ComplianceStatus.non_compliant)
        then ControlStatus.non_compliant else ControlStatus.compliance_check) ∧
    (uccControl readyControl [ncCheckItem] officerUser 9).history = readyControl.history ++
      [{ action := "compliance_check_updated", user_id := officerUser.id,
         user_name := officerUser.full_name, timestamp := 9,
         details := ActionDetails.nonCompliantCount
           ([ncCheckItem].filter
             (fun ch => ch.status == ComplianceStatus.non_compliant)).length }] :=
  C6_theorem baseStore "CTL-1" [ncCheckItem] officerUser 9 readyControl (by rfl) (by rfl)

/-- Claim C7: `update_non_compliance` is atomic with respect to
certificate rendering — when rendering fails (render outcome `none`), the
call surfaces the HTTP-500 rendering failure (ExternalServiceError) and,
the source raising before its `update_one`, returns no new store: neither
the status change nor the four non-compliance fields nor any audit entry
is persisted. -/
theorem C7_theorem (s : Store) (cid : String) (ty : NonComplianceType) (dts : String)
    (fi : ℚ) (reg : String) (u : User) (now : Nat) (c : Control) (decl : Declaration)
    (hrole : controlRoleOk u = true)
    (hfind : s.controls.find? (fun x => x.id == cid) = some c)
    (hdecl : s.declarations.find? (fun x => x.declaration_id == c.declaration_id) = some decl) :
    update_non_compliance s cid ty dts fi reg u none now =
      Except.error Err.externalServiceError :=
  unc_render_failure s cid ty dts fi reg u now c decl hrole hfind hdecl

/-- Witness for C7_theorem at the concrete base fixture. -/
theorem C7_witness :
    update_non_compliance baseStore "CTL-1" NonComplianceType.value "sous-evaluation"
        50000 "CD-230" officerUser none 11 =
      Except.error Err.externalServiceError :=
  C7_theorem baseStore "CTL-1" NonComplianceType.value "sous-evaluation" 50000 "CD-230"
    officerUser 11 readyControl baseDeclaration (by rfl) (by rfl) (by rfl)

/-! ## Claim about audit-trail growth (C8) -/

/-- Claim C8: every successful mutating operation appends exactly one
audit entry to the affected entity's history — the new history is the old
history with a single entry appended at the end (so nothing is edited,
removed or reordered), and the two creation operations start the history
with exactly one entry.  `uc` is the caller of the Control operations,
`ud` the caller of the Document operations. -/
theorem C8_theorem (s : Store) (cid did : String) (c : Control) (doc : Document)
    (checks : List ComplianceCheckItem) (ty : NonComplianceType) (dts : String)
    (fi : ℚ) (reg : String) (ack : Bool) (d : String) (uc ud : User) (fid : String)
    (r1 r2 : Option String) (ds : String) (now : Nat) (upd : DocumentUpdate)
    (title : String) (dtype : DocumentType) (tid : String)
    (content : List (String × String)) (docid ctrlid dlid : String)
    (check_ids : List String)
    (hc : s.controls.find? (fun x => x.id == cid) = some c)
    (hd : s.documents.find? (fun x => x.id == did) = some doc) :
    (∀ s2 c2, update_compliance_checks s cid checks uc now = Except.ok (s2, c2) →
      ∃ e, c2.history = c.history ++ [e]) ∧
    (∀ s2 c2, update_non_compliance s cid ty dts fi reg uc r1 now = Except.ok (s2, c2) →
      ∃ e, c2.history = c.history ++ [e]) ∧
    (∀ s2, declarant_validation s cid ack d uc fid r2 ds now = Except.ok s2 →
      ∃ e c2, s2.controls.find? (fun x => x.id == cid) = some c2 ∧
        c2.history = c.history ++ [e]) ∧
    (∀ s2 d2, update_document s did upd ud now = Except.ok (s2, d2) →
      ∃ e, d2.history = doc.history ++ [e]) ∧
    (∀ s2, submit_document s did ud now = Except.ok s2 →
      ∃ e d2, s2.documents.find? (fun x => x.id == did) = some d2 ∧
        d2.history = doc.history ++ [e]) ∧
    (∀ s2 d2, create_document s title dtype tid content ud docid now = Except.ok (s2, d2) →
      ∃ e, d2.history = [e]) ∧
    (∀ s2 c2, create_control s dlid uc ctrlid check_ids now = Except.ok (s2, c2) →
      ∃ e, c2.history = [e]) := by
  refine ⟨?_, ?_, ?_, ?_, ?_, ?_, ?_⟩
  · intro s2 c2 h
    cases hrole : controlRoleOk uc with
    | false =>
      unfold update_compliance_checks at h
      rw [hrole] at h
      simp at h
    | true =>
      rw [ucc_eq s cid checks uc now c hrole hc] at h
      have h2 := Except.ok.inj h
      have h3 : c2 = (uccResult s cid c checks uc now).2 := by rw [h2]
      subst h3
      exact ⟨_, rfl⟩
  · intro s2 c2 h
    cases hrole : controlRoleOk uc with
    | false =>
      unfold update_non_compliance at h
      rw [hrole] at h
      simp at h
    | true =>
      cases hdecl : s.declarations.find? (fun x => x.declaration_id == c.declaration_id) with
      | none =>
        unfold update_non_compliance at h
        simp [hrole, hc, hdecl] at h
      | some decl =>
        cases r1 with
        | none =>
          rw [unc_render_failure s cid ty dts fi reg uc now c decl hrole hc hdecl] at h
          simp at h
        | some cert =>
          rw [unc_eq s cid ty dts fi reg uc cert now c decl hrole hc hdecl] at h
          have h2 := Except.ok.inj h
          have h3 : c2 = (uncResult s cid c ty dts fi reg cert uc now).2 := by rw [h2]
          subst h3
          exact ⟨_, rfl⟩
  · intro s2 h
    cases hrole : controlRoleOk uc with
    | false =>
      unfold declarant_validation at h
      rw [hrole] at h
      simp at h
    | true =>
      cases ack with
      | false =>
        unfold declarant_validation at h
        simp [hrole, hc] at h
      | true =>
        by_cases hpass : d = "pass_over"
        · subst hpass
          rw [dv_pass_eq s cid uc fid r2 ds now c hrole hc] at h
          have h2 := Except.ok.inj h
          subst h2
          refine ⟨_, dvPassControl c "pass_over" uc now, ?_, rfl⟩
          have hp := List.find?_some hc
          exact replaceFirst_find? (fun x => x.id == cid)
            (dvPassControl c "pass_over" uc now) c s.controls hc hp
        · cases hfi2 : c.fiscal_impact with
          | none =>
            unfold declarant_validation at h
            simp [hrole, hc, hpass, hfi2] at h
          | some a =>
            cases har : c.applicable_regulation with
            | none =>
              unfold declarant_validation at h
              simp [hrole, hc, hpass, hfi2, har] at h
            | some r =>
              cases hdecl : s.declarations.find?
                  (fun x => x.declaration_id == c.declaration_id) with
              | none =>
                unfold declarant_validation at h
                simp [hrole, hc, hpass, hfi2, har, hdecl] at h
              | some decl =>
                cases r2 with
                | none =>
                  unfold declarant_validation at h
                  simp [hrole, hc, hpass, hfi2, har, hdecl] at h
                | some np =>
                  rw [dv_fine_eq s cid d uc fid np ds now c a r decl hrole hc hpass hfi2
                    har hdecl] at h
                  have h2 := Except.ok.inj h
                  subst h2
                  refine ⟨_, dvFineControl c d uc now, ?_, rfl⟩
                  have hp := List.find?_some hc
                  exact replaceFirst_find? (fun x => x.id == cid)
                    (dvFineControl c d uc now) c s.controls hc hp
  · intro s2 d2 h
    by_cases hperm : ud.role = UserRole.drafting_agent ∧ doc.created_by ≠ ud.id ∧
        doc.status ≠ DocumentStatus.draft
    · unfold update_document at h
      simp [hd, hperm] at h
    · rw [upd_eq s did upd ud now doc hd hperm] at h
      have h2 := Except.ok.inj h
      have h3 : d2 = (updResult s did doc upd ud now).2 := by rw [h2]
      subst h3
      exact ⟨_, rfl⟩
  · intro s2 h
    by_cases hrole : ud.role = UserRole.drafting_agent
    · by_cases hcreator : doc.created_by = ud.id
      · by_cases hdraft : doc.status = DocumentStatus.draft
        · rw [submit_eq s did ud now doc hrole hd hcreator hdraft] at h
          have h2 := Except.ok.inj h
          subst h2
          refine ⟨_, submittedDoc doc ud now, ?_, rfl⟩
          have hp := List.find?_some hd
          exact replaceFirst_find? (fun x => x.id == did)
            (submittedDoc doc ud now) doc s.documents hd hp
        · unfold submit_document at h
          simp [hrole, hd, hcreator, hdraft] at h
      · unfold submit_document at h
        simp [hrole, hd, hcreator] at h
    · unfold submit_document at h
      simp [hrole] at h
  · intro s2 d2 h
    by_cases hrole : ud.role = UserRole.drafting_agent
    · cases htpl : s.templates.find? (fun t => t.id == tid) with
      | none =>
        unfold create_document at h
        simp [hrole, htpl] at h
      | some tpl =>
        unfold create_document at h
        simp only [hrole, htpl] at h
        simp at h
        obtain ⟨h1, h2⟩ := h
        subst h2
        exact ⟨_, rfl⟩
    · unfold create_document at h
      simp [hrole] at h
  · intro s2 c2 h
    cases hrole : controlRoleOk uc with
    | false =>
      unfold create_control at h
      rw [hrole] at h
      simp at h
    | true =>
      unfold create_control at h
      rw [hrole] at h
      simp at h
      obtain ⟨h1, h2⟩ := h
      subst h2
      exact ⟨_, rfl⟩

/-- Witness for C8_theorem at the concrete base fixtures (officer for the
Control operations, drafting agent for the Document operations; every one
of the seven calls actually succeeds there). -/
theorem C8_witness :
    (∀ s2 c2, update_compliance_checks baseStore "CTL-1" [ncCheckItem] officerUser 9 =
        Except.ok (s2, c2) → ∃ e, c2.history = readyControl.history ++ [e]) ∧
    (∀ s2 c2, update_non_compliance baseStore "CTL-1" NonComplianceType.value
        "sous-evaluation" 50000 "CD-230" officerUser (some "cert.pdf") 9 =
        Except.ok (s2, c2) → ∃ e, c2.history = readyControl.history ++ [e]) ∧
    (∀ s2, declarant_validation baseStore "CTL-1" true "customs_fine" officerUser "FINE-1"
        (some "notice.pdf") "20260101" 9 = Except.ok s2 →
      ∃ e c2, s2.controls.find? (fun x => x.id == "CTL-1") = some c2 ∧
        c2.history = readyControl.history ++ [e]) ∧
    (∀ s2 d2, update_document baseStore "DOC-1" titleUpdate agentUser 9 =
        Except.ok (s2, d2) → ∃ e, d2.history = draftDoc.history ++ [e]) ∧
    (∀ s2, submit_document baseStore "DOC-1" agentUser 9 = Except.ok s2 →
      ∃ e d2, s2.documents.find? (fun x => x.id == "DOC-1") = some d2 ∧
        d2.history = draftDoc.history ++ [e]) ∧
    (∀ s2 d2, create_document baseStore "Rapport 2" DocumentType.customs_report "TPL-1"
        [] agentUser "DOC-2" 9 = Except.ok (s2, d2) → ∃ e, d2.history = [e]) ∧
    (∀ s2 c2, create_control baseStore "DEC-2" officerUser "CTL-9"
        ["a", "b", "c", "d", "e", "f", "g"] 9 = Except.ok (s2, c2) →
      ∃ e, c2.history = [e]) :=
  C8_theorem baseStore "CTL-1" "DOC-1" readyControl draftDoc [ncCheckItem]
    NonComplianceType.value "sous-evaluation" 50000 "CD-230" true "customs_fine"
    officerUser agentUser "FINE-1" (some "cert.pdf") (some "notice.pdf") "20260101" 9
    titleUpdate "Rapport 2" DocumentType.customs_report "TPL-1" [] "DOC-2" "CTL-9" "DEC-2"
    ["a", "b", "c", "d", "e", "f", "g"] (by rfl) (by rfl)

/-! ## Claim about role-scoped listing (C9) -/

/-- Claim C9: listing is role-scoped exactly as specified — a drafting
agent's document list contains only documents they created; a control
officer's control list contains only their own controls and their document
list only documents under control or assigned to them; validation officers
and the management administrator get both lists unfiltered. -/
theorem C9_theorem (s : Store) (u : User) :
    (u.role = UserRole.drafting_agent →
      ∀ d ∈ get_documents s u, d.created_by = u.id) ∧
    (u.role = UserRole.control_officer →
      (∀ c ∈ get_controls s u, c.control_officer_id = u.id) ∧
      (∀ d ∈ get_documents s u,
        d.status = DocumentStatus.under_control ∨ d.assigned_to = some u.id)) ∧
    (u.role = UserRole.validation_officer ∨ u.role = UserRole.moa →
      get_documents s u = s.documents ∧ get_controls s u = s.controls) := by
  refine ⟨?_, ?_, ?_⟩
  · intro hrole d hd
    rw [get_documents, hrole] at hd
    exact eq_of_beq (List.mem_filter.mp hd).2
  · intro hrole
    constructor
    · intro c hcm
      rw [get_controls, hrole] at hcm
      exact eq_of_beq (List.mem_filter.mp hcm).2
    · intro d hd
      rw [get_documents, hrole] at hd
      have hp := (List.mem_filter.mp hd).2
      rcases Bool.or_eq_true_iff.mp hp with h1 | h2
      · exact Or.inl (eq_of_beq h1)
      · exact Or.inr (eq_of_beq h2)
  · rintro (hrole | hrole) <;> constructor <;>
      simp [get_documents, get_controls, hrole]

/-- Witness for C9_theorem at a concrete store and caller. -/
theorem C9_witness :
    (officerUser.role = UserRole.drafting_agent →
      ∀ d ∈ get_documents baseStore officerUser, d.created_by = officerUser.id) ∧
    (officerUser.role = UserRole.control_officer →
      (∀ c ∈ get_controls baseStore officerUser,
        c.control_officer_id = officerUser.id) ∧
      (∀ d ∈ get_documents baseStore officerUser,
        d.status = DocumentStatus.under_control ∨
        d.assigned_to = some officerUser.id)) ∧
    (officerUser.role = UserRole.validation_officer ∨ officerUser.role = UserRole.moa →
      get_documents baseStore officerUser = baseStore.documents ∧
      get_controls baseStore officerUser = baseStore.controls) :=
  C9_theorem baseStore officerUser

/-- Witness for C4_amended at a concrete terminal-state Control. -/
theorem C4_witness :
    update_compliance_checks completedStore "CTL-1" [ncCheckItem] officerUser 9 ≠
      Except.error Err.invalidState ∧
    update_non_compliance completedStore "CTL-1" NonComplianceType.value "x" 1 "CD-230"
      officerUser (some "c.pdf") 9 ≠ Except.error Err.invalidState ∧
    declarant_validation completedStore "CTL-1" true "pass_over" officerUser "F" none
      "20260101" 9 ≠ Except.error Err.invalidState :=
  C4_amended completedStore "CTL-1" [ncCheckItem] NonComplianceType.value "x" 1 "CD-230"
    true "pass_over" officerUser "F" (some "c.pdf") none "20260101" 9
